import Mathlib

/-!
Verification of the URL-normalization and telemetry-queue subsystem of
`src/util/mapbox.js`.

Conventions of the embedding:
* JS strings are `List Char`; nullable strings are `Option (List Char)` and
  nullable numbers `Option Int` (JS truthiness is made explicit: `null`,
  the empty string and `0` are falsy).
* Epoch-milliseconds timestamps are `Int`; the float division
  `daysElapsed = diff / 86400000` compared against `1` / `-1` is rendered as
  the exact integer comparisons `diff >= 86400000` / `diff < -86400000`.
* Fallible code (`throw new Error(...)`) returns `Except ApiError _`.
* External collaborators declared out of scope by the module (`uuid`,
  `validateUuid`, `Date#getDate`, localStorage availability, package
  version) are supplied through an environment record; a dispatcher step is
  a pure function of that environment and the instance state.
-/

/-- Errors thrown by the module: `Unable to parse URL object`, the missing
access-token error and the secret access-token error of `makeAPIURL`. -/
inductive ApiError where
  | malformed
  | missingToken
  | secretToken
deriving DecidableEq, Repr

/-- The `UrlObject` record of `mapbox.js`: `{protocol, authority, path, params}`. -/
structure UrlObject where
  protocol : List Char
  authority : List Char
  path : List Char
  params : List (List Char)
deriving DecidableEq, Repr

/-- JS truthiness of a nullable string: `null` and `""` are falsy. -/
def truthyStr (s : Option (List Char)) : Bool :=
  match s with
  | none => false
  | some l => !l.isEmpty

/-- JS truthiness of a nullable number: `null` and `0` are falsy. -/
def truthyNum (n : Option Int) : Bool :=
  match n with
  | none => false
  | some v => decide (v ≠ 0)

/-- JS `a || b` on nullable strings. -/
def jsOr (a b : Option (List Char)) : Option (List Char) :=
  if truthyStr a then a else b

/-- JS `\w` (ASCII word character), as used by the scheme group of `urlRe`. -/
def isWordChar (c : Char) : Bool :=
  (('a' ≤ c && c ≤ 'z') || ('A' ≤ c && c ≤ 'Z') || ('0' ≤ c && c ≤ '9') || c = '_')

/-- The authority group `[^/?]*` of `urlRe`. -/
def notSlashQ (c : Char) : Bool := !(c = '/' || c = '?')

/-- The path group `[^?]+` of `urlRe`. -/
def notQ (c : Char) : Bool := !(c = '?')

/-- The query group `.+` of `urlRe`: a JS `.` matches everything except
the line terminators LF, CR, LINE SEPARATOR (U+2028) and PARAGRAPH
SEPARATOR (U+2029). -/
def notLineTerm (c : Char) : Bool :=
  !(c = '\n' || c = '\r' || c = '\u2028' || c = '\u2029')

/-- JS `String#split('&')`: `splitAmp l` cuts `l` at every `'&'`, keeping
empty pieces ( `"a&&b" ↦ ["a","","b"]` ). -/
def splitAmp : List Char → List (List Char)
  | [] => [[]]
  | c :: t =>
    if c = '&' then [] :: splitAmp t
    else
      match splitAmp t with
      | [] => [[c]]
      | h :: r => (c :: h) :: r

/-- JS `Array#join('&')`. -/
def joinAmp : List (List Char) → List Char
  | [] => []
  | [x] => x
  | x :: y :: r => x ++ '&' :: joinAmp (y :: r)

/-- `parseUrl` of `mapbox.js`: matches
`/^(\w+):\/\/([^/?]*)(\/[^?]+)?\??(.+)?/` and packages the groups, with
`path` defaulting to `/` and `params` the `&`-split of the query group.
`none` models the thrown `Unable to parse URL object`. -/
def parseUrl (url : List Char) : Option UrlObject :=
  let w := url.takeWhile isWordChar
  let rest := url.dropWhile isWordChar
  if w.isEmpty then none
  else
    match rest with
    | ':' :: '/' :: '/' :: r2 =>
      let auth := r2.takeWhile notSlashQ
      let r3 := r2.dropWhile notSlashQ
      let pr :=
        match r3 with
        | '/' :: t =>
          let pb := t.takeWhile notQ
          if pb.isEmpty then (([] : List Char), r3)
          else ('/' :: pb, t.dropWhile notQ)
        | _ => (([] : List Char), r3)
      let r5 :=
        match pr.2 with
        | '?' :: t => t
        | _ => pr.2
      let q := r5.takeWhile notLineTerm
      some { protocol := w, authority := auth,
             path := if pr.1.isEmpty then ['/'] else pr.1,
             params := if q.isEmpty then [] else splitAmp q }
    | _ => none

/-- `formatUrl` of `mapbox.js`: `protocol://authority path ?params`, the
query omitted when `params` is empty. -/
def formatUrl (obj : UrlObject) : List Char :=
  obj.protocol ++ ':' :: '/' :: '/' :: obj.authority ++ obj.path ++
    (if obj.params.isEmpty then [] else '?' :: joinAmp obj.params)

/-- The SDK-wide `config` singleton fields this module reads. -/
structure Config where
  API_URL : List Char
  EVENTS_URL : List Char
  REQUIRE_ACCESS_TOKEN : Bool
  ACCESS_TOKEN : Option (List Char)
deriving DecidableEq, Repr

/-- `makeAPIURL` of `mapbox.js`: rewrite protocol/authority to the API
origin, prefix the API origin's own path if non-root, and, only when
`REQUIRE_ACCESS_TOKEN` is set, check the token and append
`access_token=...`. -/
def makeAPIURL (cfg : Config) (urlObject : UrlObject)
    (accessToken : Option (List Char)) : Except ApiError (List Char) :=
  match parseUrl cfg.API_URL with
  | none => .error .malformed
  | some apiUrlObject =>
    let u1 := { urlObject with protocol := apiUrlObject.protocol,
                               authority := apiUrlObject.authority }
    let u2 := if apiUrlObject.path ≠ ['/']
              then { u1 with path := apiUrlObject.path ++ u1.path } else u1
    if !cfg.REQUIRE_ACCESS_TOKEN then .ok (formatUrl u2)
    else
      match jsOr accessToken cfg.ACCESS_TOKEN with
      | some (c :: cs) =>
        if c = 's' then .error .secretToken
        else .ok (formatUrl { u2 with
          params := u2.params ++ ["access_token=".toList ++ (c :: cs)] })
      | _ => .error .missingToken

/-- `isMapboxURL`: `url.indexOf('mapbox:') === 0`. -/
def isMapboxURL (url : List Char) : Bool :=
  "mapbox:".toList.isPrefixOf url

/-- Tail of `mapboxHTTPURLRe` after the optional subdomain:
`mapbox\.c(n|om)(\/|\?|$)` (on an already-lowercased string). -/
def mapboxTail (t : List Char) : Bool :=
  ("mapbox.cn".toList.isPrefixOf t && delimOk (t.drop 9)) ||
  ("mapbox.com".toList.isPrefixOf t && delimOk (t.drop 10))
where
  /-- `(\/|\?|$)`. -/
  delimOk : List Char → Bool
    | [] => true
    | c :: _ => c = '/' || c = '?'

/-- The subdomain group `([^\/]+\.)` followed by `mapboxTail`: at least one
`'/'`-free character precedes the terminating `'.'`, so the first character
is consumed by `[^\/]+` and the dot can only close the group from the
second position on. -/
def dotPrefixTail : List Char → Bool
  | [] => false
  | c :: t => !(c = '/') && dotPrefixRest t
where
  /-- Positions ≥ 1 of the subdomain: either the terminating `'.'` of
  `[^\/]+\.` (with the mapbox host following) or one more `[^\/]` char. -/
  dotPrefixRest : List Char → Bool
    | [] => false
    | c :: t =>
      if c = '/' then false
      else (c = '.' && mapboxTail t) || dotPrefixRest t

/-- `isMapboxHTTPURL`: `mapboxHTTPURLRe.test(url)` with
`mapboxHTTPURLRe = /^((https?:)?\/\/)?([^\/]+\.)?mapbox\.c(n|om)(\/|\?|$)/i`. -/
def isMapboxHTTPURL (url : List Char) : Bool :=
  let s := url.map Char.toLower
  [([] : List Char), "//".toList, "http://".toList, "https://".toList].any
    fun a => a.isPrefixOf s &&
      (mapboxTail (s.drop a.length) || dotPrefixTail (s.drop a.length))

/-- `normalizeStyleURL`. -/
def normalizeStyleURL (cfg : Config) (url : List Char)
    (accessToken : Option (List Char)) : Except ApiError (List Char) :=
  if !isMapboxURL url then .ok url
  else
    match parseUrl url with
    | none => .error .malformed
    | some u =>
      makeAPIURL cfg { u with path := "/styles/v1".toList ++ u.path } accessToken

/-- `normalizeGlyphsURL`. -/
def normalizeGlyphsURL (cfg : Config) (url : List Char)
    (accessToken : Option (List Char)) : Except ApiError (List Char) :=
  if !isMapboxURL url then .ok url
  else
    match parseUrl url with
    | none => .error .malformed
    | some u =>
      makeAPIURL cfg { u with path := "/fonts/v1".toList ++ u.path } accessToken

/-- `normalizeSourceURL`: path becomes `/v4/<authority>.json` and the
`secure` flag is appended to the params. -/
def normalizeSourceURL (cfg : Config) (url : List Char)
    (accessToken : Option (List Char)) : Except ApiError (List Char) :=
  if !isMapboxURL url then .ok url
  else
    match parseUrl url with
    | none => .error .malformed
    | some u =>
      makeAPIURL cfg
        { u with path := "/v4/".toList ++ u.authority ++ ".json".toList,
                 params := u.params ++ ["secure".toList] } accessToken

/-- `normalizeSpriteURL`: the input is parsed first; a non-mapbox locator
has `format ++ extension` appended to its path and is re-formatted, a
mapbox locator is rewritten to `/styles/v1<path>/sprite<format><extension>`
and delegated to `makeAPIURL`. -/
def normalizeSpriteURL (cfg : Config) (url fmt ext : List Char)
    (accessToken : Option (List Char)) : Except ApiError (List Char) :=
  match parseUrl url with
  | none => .error .malformed
  | some u =>
    if !isMapboxURL url then .ok (formatUrl { u with path := u.path ++ fmt ++ ext })
    else
      makeAPIURL cfg
        { u with path := "/styles/v1".toList ++ u.path ++ "/sprite".toList ++ fmt ++ ext }
        accessToken

/-- Does the whole list match `\.(png|jpg)\d*$` (the anchored tail of
`imageExtensionRe = /(\.(png|jpg)\d*)(?=$)/`)? -/
def imageExtMatch (l : List Char) : Bool :=
  match l with
  | '.' :: rest =>
    ("png".toList.isPrefixOf rest || "jpg".toList.isPrefixOf rest) &&
      (rest.drop 3).all Char.isDigit
  | _ => false

/-- `path.replace(imageExtensionRe, suffix + extension)`: rewrite the
leftmost match of `imageExtensionRe`; `extension` is `.webp` when supported
and the back-reference `$1` (the matched text itself) otherwise. -/
def replaceImageExt (suffix : List Char) (webp : Bool) : List Char → List Char
  | [] => []
  | c :: t =>
    if imageExtMatch (c :: t) then
      suffix ++ (if webp then ".webp".toList else c :: t)
    else c :: replaceImageExt suffix webp t

/-- `replaceTempAccessToken`: every param with prefix `access_token=tk.`
becomes `access_token=` followed by `config.ACCESS_TOKEN || ''`. -/
def replaceTempAccessToken (cfg : Config) (params : List (List Char)) :
    List (List Char) :=
  params.map fun p =>
    if "access_token=tk.".toList.isPrefixOf p then
      "access_token=".toList ++ cfg.ACCESS_TOKEN.getD []
    else p

/-- The `browser` capability fields read by `normalizeTileURL`. -/
structure Browser where
  devicePixelRatio : Int
  supportsWebp : Bool
deriving DecidableEq, Repr

/-- `normalizeTileURL`: pass the tile URL through unless the *source* URL
is a mapbox URL; otherwise rewrite the image extension (with `@2x` suffix
for hidpi or 512px tiles), swap any temporary `tk.` access token for the
configured one, and re-format. It never calls `makeAPIURL`. -/
def normalizeTileURL (cfg : Config) (br : Browser) (tileURL : List Char)
    (sourceURL : Option (List Char)) (tileSize : Option Int) :
    Except ApiError (List Char) :=
  if !(truthyStr sourceURL && isMapboxURL (sourceURL.getD [])) then .ok tileURL
  else
    match parseUrl tileURL with
    | none => .error .malformed
    | some urlObject =>
      let suffix := if decide (br.devicePixelRatio ≥ 2) || decide (tileSize = some 512)
                    then "@2x".toList else []
      let u1 := { urlObject with
                    path := replaceImageExt suffix br.supportsWebp urlObject.path }
      .ok (formatUrl { u1 with params := replaceTempAccessToken cfg u1.params })

/-!
## Telemetry delivery queue

`TelemetryEvent` and its two subclasses are embedded as explicit state
records plus pure step functions.  A `processRequests` call is one step; the
`postData` completion callback is a second step (`onRequestComplete`),
carrying the entry data the JS closure captured in the `pending` slot.  The
shared localStorage slot read by `fetchEventData` / written by
`saveEventData` is the `store` field of the state; `storageAvailable` /
`storageWriteOk` model the availability probe and a swallowed write error.
-/

/-- The persisted `eventData` record `{anonId, lastSuccess, accessToken}`. -/
structure EventData where
  anonId : Option (List Char)
  lastSuccess : Option Int
  accessToken : Option (List Char)
deriving DecidableEq, Repr

/-- Out-of-scope collaborators and configuration, fixed during a step:
`uuid()` is modelled by the `freshUuid` value it would return,
`validateUuid` by a predicate, `new Date(t).getDate()` (local calendar
day-of-month) by `getDate`. -/
structure TelemetryEnv where
  config : Config
  sdkVersion : List Char
  validateUuid : List Char → Bool
  freshUuid : List Char
  getDate : Int → Int
  storageAvailable : Bool
  storageWriteOk : Bool

/-- `validateUuid(this.eventData.anonId)` on a nullable string: a missing
id never validates. -/
def jsValidUuid (env : TelemetryEnv) (a : Option (List Char)) : Bool :=
  match a with
  | none => false
  | some l => env.validateUuid l

/-- One outbound `postData` request.  `created` keeps the raw epoch millis
whose ISO-8601 rendering the Date collaborator produces; the
`Content-Type: text/plain` header is fixed in the source and not repeated
here. -/
structure Request where
  url : List Char
  event : List Char
  created : Int
  sdkIdentifier : List Char
  sdkVersion : List Char
  enabledTelemetry : Option Bool
  userId : Option (List Char)
deriving DecidableEq, Repr

/-- The request URL both policies build: `parseUrl(config.EVENTS_URL)` with
`access_token=${config.ACCESS_TOKEN || ''}` pushed, then `formatUrl`. -/
def eventsRequestUrl (cfg : Config) : Option (List Char) :=
  (parseUrl cfg.EVENTS_URL).map fun u =>
    formatUrl { u with params := u.params ++ ["access_token=".toList ++ cfg.ACCESS_TOKEN.getD []] }

/-- `TelemetryEvent#fetchEventData`: replace `eventData` by the stored
record when localStorage is available and holds parseable data; otherwise
leave it unchanged (read failures only warn). -/
def fetchEventData (env : TelemetryEnv) (ed : EventData)
    (store : Option EventData) : EventData :=
  if env.storageAvailable then store.getD ed else ed

/-- `TelemetryEvent#saveEventData`: overwrite the stored record when
localStorage is available and the write does not throw; write failures only
warn. -/
def saveEventData (env : TelemetryEnv) (ed : EventData)
    (store : Option EventData) : Option EventData :=
  if env.storageAvailable && env.storageWriteOk then some ed else store

/-- State of a `MapLoadEvent` instance: `eventData`, the shared storage
slot, the FIFO `queue` of `{id, timestamp}` entries, the single in-flight
slot (holding the `id` the completion callback captured) and the
process-lifetime `success` set (the ids mapped to `true`). -/
structure MapLoadState where
  eventData : EventData
  store : Option EventData
  queue : List (Nat × Int)
  pending : Option Nat
  success : List Nat
deriving DecidableEq, Repr

/-- The `map.load` request body (plus its URL). -/
def mapLoadRequest (env : TelemetryEnv) (ed : EventData) (timestamp : Int)
    (url : List Char) : Request :=
  { url := url, event := "map.load".toList, created := timestamp,
    sdkIdentifier := "mapbox-gl-js".toList, sdkVersion := env.sdkVersion,
    enabledTelemetry := none, userId := ed.anonId }

/-- `MapLoadEvent#processRequests`: return while a request is pending or
the queue is empty; pop one `{id, timestamp}`; a nonzero `id` already in
the success set is dropped with no further processing; otherwise fetch
stored data if `anonId` is falsy, regenerate an invalid `anonId`, build the
request and occupy the in-flight slot.  The result pairs the new state with
the list of requests handed to `postData`. -/
def MapLoadEvent.processRequests (env : TelemetryEnv) (s : MapLoadState) :
    Except ApiError (MapLoadState × List Request) :=
  match s.queue with
  | [] => .ok (s, [])
  | (id, timestamp) :: rest =>
    if s.pending.isSome then .ok (s, [])
    else
      let s1 := { s with queue := rest }
      if decide (id ≠ 0) && s1.success.contains id then .ok (s1, [])
      else
        let ed1 := if !truthyStr s1.eventData.anonId
                   then fetchEventData env s1.eventData s1.store else s1.eventData
        let ed2 := if !jsValidUuid env ed1.anonId
                   then { ed1 with anonId := some env.freshUuid } else ed1
        match eventsRequestUrl env.config with
        | none => .error .malformed
        | some url =>
          .ok ({ s1 with eventData := ed2, pending := some id },
               [mapLoadRequest env ed2 timestamp url])

/-- The completion callback `MapLoadEvent` passes to `postData`: clear the
in-flight slot; on success mark a nonzero `id`, save the event data and
drain the queue again; on failure do nothing further. -/
def MapLoadEvent.onRequestComplete (env : TelemetryEnv) (error : Bool)
    (s : MapLoadState) : Except ApiError (MapLoadState × List Request) :=
  match s.pending with
  | none => .ok (s, [])
  | some id =>
    let s1 := { s with pending := none }
    if error then .ok (s1, [])
    else
      let s2 := if id ≠ 0 then { s1 with success := id :: s1.success } else s1
      let s3 := { s2 with store := saveEventData env s2.eventData s2.store }
      MapLoadEvent.processRequests env s3

/-- `MapLoadEvent#postMapLoadEvent`: enabled only when an access token is
set and some tile URL is a mapbox HTTP URL; then `queueRequest` pushes
`{id: mapId, timestamp: Date.now()}` and runs `processRequests`. -/
def MapLoadEvent.postMapLoadEvent (env : TelemetryEnv)
    (tileUrls : List (List Char)) (mapId : Nat) (now : Int)
    (s : MapLoadState) : Except ApiError (MapLoadState × List Request) :=
  if truthyStr env.config.ACCESS_TOKEN && tileUrls.any isMapboxHTTPURL then
    MapLoadEvent.processRequests env { s with queue := s.queue ++ [(mapId, now)] }
  else .ok (s, [])

/-- State of a `TurnstileEvent` instance: as `MapLoadState` but with bare
timestamps queued and no success set. -/
structure TurnstileState where
  eventData : EventData
  store : Option EventData
  queue : List Int
  pending : Option Int
deriving DecidableEq, Repr

/-- The part of `TurnstileEvent#processRequests` that runs before the
shift: the token-rotation check against `config.ACCESS_TOKEN` (resetting
`anonId`/`lastSuccess` when it fires), the conditional `fetchEventData`,
and the `validateUuid` check regenerating `anonId` (which forces
`dueForEvent`).  Returns the updated `eventData` and the `dueForEvent`
flag so far. -/
def TurnstileEvent.preamble (env : TelemetryEnv) (ed : EventData)
    (store : Option EventData) : EventData × Bool :=
  let due0 := truthyStr ed.accessToken &&
              decide (ed.accessToken ≠ env.config.ACCESS_TOKEN)
  let ed1 := if due0 then { ed with anonId := none, lastSuccess := none } else ed
  let ed2 := if !truthyStr ed1.anonId || !truthyNum ed1.lastSuccess
             then fetchEventData env ed1 store else ed1
  if !jsValidUuid env ed2.anonId then ({ ed2 with anonId := some env.freshUuid }, true)
  else (ed2, due0)

/-- The once-per-calendar-day test guarded by `if (this.eventData.lastSuccess)`:
`daysElapsed >= 1 || daysElapsed < -1 || lastUpdate.getDate() !== nextDate.getDate()`. -/
def TurnstileEvent.dueDate (env : TelemetryEnv) (ed : EventData) (next : Int) : Bool :=
  if truthyNum ed.lastSuccess then
    let last := ed.lastSuccess.getD 0
    decide (next - last ≥ 86400000) || decide (next - last < -86400000) ||
      decide (env.getDate last ≠ env.getDate next)
  else false

/-- The `appUserTurnstile` request body (plus its URL); note the fixed
`'enabled.telemetry': false` field. -/
def turnstileRequest (env : TelemetryEnv) (ed : EventData) (next : Int)
    (url : List Char) : Request :=
  { url := url, event := "appUserTurnstile".toList, created := next,
    sdkIdentifier := "mapbox-gl-js".toList, sdkVersion := env.sdkVersion,
    enabledTelemetry := some false, userId := ed.anonId }

/-- The drain loop of `TurnstileEvent#processRequests`: run the preamble,
shift one timestamp, extend `dueForEvent` with the calendar test; when not
due, recurse onto the next entry (the tail call `return this.processRequests()`);
when due, build the request and occupy the in-flight slot. -/
def TurnstileEvent.drain (env : TelemetryEnv) (ed : EventData)
    (store : Option EventData) : List Int → Except ApiError (TurnstileState × List Request)
  | [] => .ok ({ eventData := ed, store := store, queue := [], pending := none }, [])
  | next :: rest =>
    let pr := TurnstileEvent.preamble env ed store
    let due := pr.2 || TurnstileEvent.dueDate env pr.1 next
    if !due then TurnstileEvent.drain env pr.1 store rest
    else
      match eventsRequestUrl env.config with
      | none => .error .malformed
      | some url =>
        .ok ({ eventData := pr.1, store := store, queue := rest, pending := some next },
             [turnstileRequest env pr.1 next url])

/-- `TurnstileEvent#processRequests`: return while a request is pending or
the queue is empty, otherwise drain. -/
def TurnstileEvent.processRequests (env : TelemetryEnv) (s : TurnstileState) :
    Except ApiError (TurnstileState × List Request) :=
  if s.pending.isSome || s.queue.isEmpty then .ok (s, [])
  else TurnstileEvent.drain env s.eventData s.store s.queue

/-- The completion callback `TurnstileEvent` passes to `postData`: clear
the in-flight slot; on success set `lastSuccess` to the sent timestamp and
`accessToken` to the current token, save, and drain again; on failure do
nothing further. -/
def TurnstileEvent.onRequestComplete (env : TelemetryEnv) (error : Bool)
    (s : TurnstileState) : Except ApiError (TurnstileState × List Request) :=
  match s.pending with
  | none => .ok (s, [])
  | some next =>
    let s1 := { s with pending := none }
    if error then .ok (s1, [])
    else
      let ed := { s1.eventData with lastSuccess := some next,
                                    accessToken := env.config.ACCESS_TOKEN }
      TurnstileEvent.processRequests env
        { s1 with eventData := ed, store := saveEventData env ed s1.store }

/-- `TurnstileEvent#postTurnstileEvent`: enabled only when an access token
is set and some tile URL is a mapbox HTTP URL; then `queueRequest` pushes
`Date.now()` and runs `processRequests`. -/
def TurnstileEvent.postTurnstileEvent (env : TelemetryEnv)
    (tileUrls : List (List Char)) (now : Int) (s : TurnstileState) :
    Except ApiError (TurnstileState × List Request) :=
  if truthyStr env.config.ACCESS_TOKEN && tileUrls.any isMapboxHTTPURL then
    TurnstileEvent.processRequests env { s with queue := s.queue ++ [now] }
  else .ok (s, [])

/-!
## Spec-side definitions

`dueSpecAmended` restates the recurring policy's admission condition as the
flat disjunction of §4.4 of the spec, corrected on the missing-`lastSuccess`
point; it is compared against the sequential flag accumulation of
`TurnstileEvent.processRequests`.
-/

/-- The `EventState` in effect for an admission decision: the in-memory
record, cleared on a detected token rotation, then replaced by the stored
record when the id or the last-success timestamp is missing. -/
def effectiveEventData (env : TelemetryEnv) (ed : EventData)
    (store : Option EventData) : EventData :=
  let cleared := if truthyStr ed.accessToken &&
                    decide (ed.accessToken ≠ env.config.ACCESS_TOKEN)
                 then { ed with anonId := none, lastSuccess := none } else ed
  if !truthyStr cleared.anonId || !truthyNum cleared.lastSuccess
  then fetchEventData env cleared store else cleared

/-- The amended spec condition for a recurring entry to be due: the stored
token is set and differs from the current one, or the anonymous id in
effect is absent or invalid, or a last-success timestamp is in effect and
the elapsed-time / calendar-day test fires.  (A state with a valid id, an
unchanged token and *no* last-success timestamp is **not** due.) -/
def dueSpecAmended (env : TelemetryEnv) (s : TurnstileState) (next : Int) : Bool :=
  (truthyStr s.eventData.accessToken &&
     decide (s.eventData.accessToken ≠ env.config.ACCESS_TOKEN)) ||
  !jsValidUuid env (effectiveEventData env s.eventData s.store).anonId ||
  TurnstileEvent.dueDate env (effectiveEventData env s.eventData s.store) next

/-!
### Concrete fixtures used by witnesses and counterexamples
-/

/-- A representative configuration with a public token. -/
def exCfg : Config :=
  { API_URL := "https://api.mapbox.com".toList,
    EVENTS_URL := "https://events.mapbox.com/events/v2".toList,
    REQUIRE_ACCESS_TOKEN := true,
    ACCESS_TOKEN := some ("pk.x".toList) }

/-- A concrete environment: exactly the string `0000` validates as a UUID,
`uuid()` returns `fresh`, `getDate` is the day index of the epoch-millis
value, and localStorage works. -/
def exEnv : TelemetryEnv :=
  { config := exCfg, sdkVersion := "1.0.0".toList,
    validateUuid := fun l => decide (l = "0000".toList),
    freshUuid := "fresh".toList,
    getDate := fun t => t / 86400000,
    storageAvailable := true, storageWriteOk := true }

/-- Event data with a valid id, no last success, and the current token. -/
def exEventData : EventData :=
  { anonId := some ("0000".toList), lastSuccess := none,
    accessToken := some ("pk.x".toList) }

/-- The C3 counterexample state: valid persisted anonymous id, unchanged
token, no persisted last-success timestamp, one queued timestamp. -/
def c3CexState : TurnstileState :=
  { eventData := exEventData, store := some exEventData,
    queue := [100], pending := none }

/-!
## Helper lemmas
-/

lemma span_all {p : Char → Bool} {l : List Char} (h : ∀ x ∈ l, p x = true) :
    l.takeWhile p = l ∧ l.dropWhile p = [] := by
  induction l with
  | nil => simp
  | cons a t ih =>
    have ha := h a (by simp)
    have ht := ih fun x hx => h x (by simp [hx])
    simp [List.takeWhile_cons, List.dropWhile_cons, ha, ht.1, ht.2]

lemma span_append {p : Char → Bool} {l : List Char} {c : Char} {r : List Char}
    (hl : ∀ x ∈ l, p x = true) (hc : p c = false) :
    ((l ++ c :: r).takeWhile p = l) ∧ ((l ++ c :: r).dropWhile p = c :: r) := by
  induction l with
  | nil => simp [List.takeWhile_cons, List.dropWhile_cons, hc]
  | cons a t ih =>
    have ha := hl a (by simp)
    have ht := ih fun x hx => hl x (by simp [hx])
    simp [List.takeWhile_cons, List.dropWhile_cons, ha, ht.1, ht.2]

lemma splitAmp_ne_nil (l : List Char) : splitAmp l ≠ [] := by
  cases l with
  | nil => simp [splitAmp]
  | cons c t =>
    simp only [splitAmp]
    split
    · simp
    · cases hs : splitAmp t <;> simp

lemma joinAmp_splitAmp (l : List Char) : joinAmp (splitAmp l) = l := by
  induction l with
  | nil => simp [splitAmp, joinAmp]
  | cons c t ih =>
    by_cases hc : c = '&'
    · subst hc
      simp only [splitAmp, if_pos rfl]
      cases hs : splitAmp t with
      | nil => exact absurd hs (splitAmp_ne_nil t)
      | cons h r =>
        rw [hs] at ih
        simpa [joinAmp] using ih
    · simp only [splitAmp, if_neg hc]
      cases hs : splitAmp t with
      | nil => exact absurd hs (splitAmp_ne_nil t)
      | cons h r =>
        rw [hs] at ih
        cases r with
        | nil => simpa [joinAmp] using ih
        | cons y rr => simpa [joinAmp] using ih

lemma preamble_eq (env : TelemetryEnv) (ed : EventData) (store : Option EventData) :
    TurnstileEvent.preamble env ed store =
      (if !jsValidUuid env (effectiveEventData env ed store).anonId
       then ({ effectiveEventData env ed store with anonId := some env.freshUuid }, true)
       else (effectiveEventData env ed store,
             truthyStr ed.accessToken &&
               decide (ed.accessToken ≠ env.config.ACCESS_TOKEN))) := rfl

lemma dueDate_anonId (env : TelemetryEnv) (e : EventData) (x : Option (List Char))
    (next : Int) :
    TurnstileEvent.dueDate env { e with anonId := x } next =
      TurnstileEvent.dueDate env e next := rfl

lemma due_eq_spec (env : TelemetryEnv) (s : TurnstileState) (next : Int) :
    ((TurnstileEvent.preamble env s.eventData s.store).2 ||
       TurnstileEvent.dueDate env (TurnstileEvent.preamble env s.eventData s.store).1 next) =
      dueSpecAmended env s next := by
  rw [preamble_eq]
  by_cases hv : jsValidUuid env (effectiveEventData env s.eventData s.store).anonId
  · simp [hv, dueSpecAmended, Bool.or_comm, Bool.or_assoc, Bool.or_left_comm]
  · simp [hv, dueSpecAmended, dueDate_anonId]

lemma mapLoad_processRequests_success (env : TelemetryEnv) (s : MapLoadState)
    (r : MapLoadState × List Request)
    (h : MapLoadEvent.processRequests env s = .ok r) : r.1.success = s.success := by
  rcases s with ⟨ed, store, q, p, succ⟩
  cases q with
  | nil =>
    simp [MapLoadEvent.processRequests] at h
    simp [← h]
  | cons e rest =>
    rcases e with ⟨id, timestamp⟩
    simp only [MapLoadEvent.processRequests] at h
    split at h
    · simp at h
      simp [← h]
    · split at h
      · simp at h
        simp [← h]
      · split at h
        · simp at h
        · simp at h
          simp [← h]

/-!
## Claim theorems
-/

/-- C1: for both event types, when the transport completion callback
reports an error the dispatcher only clears the in-flight slot: the result
state is the input state with `pending := none` (queue, `eventData`,
success set and the storage slot untouched), no request is issued, no
error is propagated, and the success hook does not run. -/
theorem c1_failure_clears_inflight_only (env : TelemetryEnv)
    (sm : MapLoadState) (st : TurnstileState) :
    MapLoadEvent.onRequestComplete env true sm = .ok ({ sm with pending := none }, []) ∧
    TurnstileEvent.onRequestComplete env true st = .ok ({ st with pending := none }, []) := by
  constructor
  · rcases sm with ⟨ed, store, q, p, succ⟩
    cases p <;> simp [MapLoadEvent.onRequestComplete]
  · rcases st with ⟨ed, store, q, p⟩
    cases p <;> simp [TurnstileEvent.onRequestComplete]

/-- C4: for both event types, `processRequests` called while a request is
in flight or while the queue is empty returns the state unchanged and
issues no request, so only one delivery is ever outstanding and entry
`n+1` is not admitted before the completion callback of entry `n` ran. -/
theorem c4_single_inflight_guard (env : TelemetryEnv)
    (sm : MapLoadState) (st : TurnstileState)
    (hm : sm.pending.isSome = true ∨ sm.queue = [])
    (ht : st.pending.isSome = true ∨ st.queue = []) :
    MapLoadEvent.processRequests env sm = .ok (sm, []) ∧
    TurnstileEvent.processRequests env st = .ok (st, []) := by
  constructor
  · rcases sm with ⟨ed, store, q, p, succ⟩
    cases q with
    | nil => simp [MapLoadEvent.processRequests]
    | cons e rest =>
      rcases e with ⟨id, timestamp⟩
      rcases hm with hm | hm
      · simp [MapLoadEvent.processRequests, hm]
      · exact absurd hm (by simp)
  · rcases ht with ht | ht
    · simp [TurnstileEvent.processRequests, ht]
    · simp [TurnstileEvent.processRequests, ht]

/-- Witness for C4 at a concrete idle state (empty queue) and a concrete
busy state (request pending). -/
theorem c4_witness :
    MapLoadEvent.processRequests exEnv
        { eventData := exEventData, store := none, queue := [],
          pending := none, success := [] } =
      .ok ({ eventData := exEventData, store := none, queue := [],
             pending := none, success := [] }, []) ∧
    TurnstileEvent.processRequests exEnv
        { eventData := exEventData, store := none, queue := [5],
          pending := some 3 } =
      .ok ({ eventData := exEventData, store := none, queue := [5],
             pending := some 3 }, []) :=
  c4_single_inflight_guard exEnv _ _ (Or.inr rfl) (Or.inl (by decide))

/-- C2: the two policies' skip behaviours are asymmetric.  A one-shot head
entry whose (nonzero) id is already in the success set is dropped and the
cycle ends — the remaining queue is untouched and no request is issued.  A
recurring head entry that is not due is dropped and processing *continues*:
the step equals a fresh `processRequests` on the state holding the
remaining queue (with the preamble's `eventData` mutations kept). -/
theorem c2_skip_asymmetry :
    (∀ (env : TelemetryEnv) (s : MapLoadState) (id : Nat) (t : Int)
        (rest : List (Nat × Int)),
        s.pending = none → s.queue = (id, t) :: rest → id ≠ 0 →
        s.success.contains id = true →
        MapLoadEvent.processRequests env s = .ok ({ s with queue := rest }, [])) ∧
    (∀ (env : TelemetryEnv) (s : TurnstileState) (next : Int) (rest : List Int),
        s.pending = none → s.queue = next :: rest →
        ((TurnstileEvent.preamble env s.eventData s.store).2 ||
           TurnstileEvent.dueDate env
             (TurnstileEvent.preamble env s.eventData s.store).1 next) = false →
        TurnstileEvent.processRequests env s =
          TurnstileEvent.processRequests env
            { eventData := (TurnstileEvent.preamble env s.eventData s.store).1,
              store := s.store, queue := rest, pending := none }) := by
  constructor
  · intro env s id t rest hp hq hid hsucc
    rcases s with ⟨ed, store, q, p, succ⟩
    simp only at hp hq
    subst hp hq
    simp at hsucc
    simp [MapLoadEvent.processRequests, hid, hsucc]
  · intro env s next rest hp hq hdue
    rcases s with ⟨ed, store, q, p⟩
    simp only at hp hq
    subst hp hq
    simp only [TurnstileEvent.processRequests, TurnstileEvent.drain, hdue,
      Option.isSome_none, Bool.false_or, Bool.not_false, if_true, List.isEmpty_cons]
    cases rest with
    | nil => simp [TurnstileEvent.drain]
    | cons y ys => simp [TurnstileEvent.drain]

/-- Witness for C2: a duplicate one-shot entry (id 7 already successful)
stops the drain even though a fresh entry (id 8) is queued behind it; a
not-due recurring entry (same day as `lastSuccess`) hands over to the next
cycle on the remaining queue. -/
theorem c2_witness :
    MapLoadEvent.processRequests exEnv
        { eventData := exEventData, store := none, queue := [(7, 100), (8, 200)],
          pending := none, success := [7] } =
      .ok ({ eventData := exEventData, store := none, queue := [(8, 200)],
             pending := none, success := [7] }, []) ∧
    TurnstileEvent.processRequests exEnv
        { eventData := { exEventData with lastSuccess := some 50 }, store := none,
          queue := [100, 200000000000], pending := none } =
      TurnstileEvent.processRequests exEnv
        { eventData := (TurnstileEvent.preamble exEnv
            { exEventData with lastSuccess := some 50 } none).1,
          store := none, queue := [200000000000], pending := none } :=
  ⟨c2_skip_asymmetry.1 exEnv _ 7 100 [(8, 200)] rfl rfl (by decide) (by decide),
   c2_skip_asymmetry.2 exEnv _ 100 [200000000000] rfl rfl (by decide)⟩

/-- C9: a one-shot entry with id `0` is never deduplicated.  Dispatching a
head entry with id `0` issues a request regardless of the success set (the
set is not consulted), and a successful completion for id `0` leaves the
success set unchanged (only nonzero ids are ever marked). -/
theorem c9_zero_id_never_deduped :
    (∀ (env : TelemetryEnv) (s : MapLoadState) (t : Int)
        (rest : List (Nat × Int)) (url : List Char),
        s.pending = none → s.queue = (0, t) :: rest →
        eventsRequestUrl env.config = some url →
        ∃ s' req, MapLoadEvent.processRequests env s = .ok (s', [req]) ∧
          s'.pending = some 0 ∧ req.created = t ∧ s'.success = s.success) ∧
    (∀ (env : TelemetryEnv) (s : MapLoadState) (r : MapLoadState × List Request),
        s.pending = some 0 →
        MapLoadEvent.onRequestComplete env false s = .ok r →
        r.1.success = s.success) := by
  constructor
  · intro env s t rest url hp hq hurl
    rcases s with ⟨ed, store, q, p, succ⟩
    simp only at hp hq
    subst hp hq
    simp only [MapLoadEvent.processRequests, Option.isSome_none, Bool.false_eq_true,
      if_false, hurl]
    refine ⟨_, _, rfl, ?_, ?_, ?_⟩ <;> simp [mapLoadRequest]
  · intro env s r hp h
    rcases s with ⟨ed, store, q, p, succ⟩
    simp only at hp
    subst hp
    simp [MapLoadEvent.onRequestComplete] at h
    have h2 := mapLoad_processRequests_success env _ r h
    simpa using h2

/-- Witness for C9: with id `0` already recorded in the success set, a
queued `(0, t)` entry still produces a request, and a successful
completion for id `0` does not grow the success set. -/
theorem c9_witness :
    (∃ s' req,
        MapLoadEvent.processRequests exEnv
            { eventData := exEventData, store := none, queue := [(0, 100)],
              pending := none, success := [0] } = .ok (s', [req]) ∧
          s'.pending = some 0 ∧ req.created = 100 ∧ s'.success = [0]) ∧
    ∀ r, MapLoadEvent.onRequestComplete exEnv false
        { eventData := exEventData, store := none, queue := [],
          pending := some 0, success := [] } = .ok r →
      r.1.success = [] :=
  ⟨c9_zero_id_never_deduped.1 exEnv _ 100 [] _ rfl rfl rfl,
   fun r h => c9_zero_id_never_deduped.2 exEnv _ r rfl h⟩

/-- C5: for both report entry points, when an access token is configured
(truthy) and at least one supplied locator matches the first-party HTTP(S)
origin pattern, the entry is appended to the queue and the dispatcher runs
on the extended queue; otherwise the call is a no-op returning the state
unchanged with no request. -/
theorem c5_report_gating :
    (∀ (env : TelemetryEnv) (urls : List (List Char)) (mapId : Nat) (now : Int)
        (s : MapLoadState),
        ((truthyStr env.config.ACCESS_TOKEN && urls.any isMapboxHTTPURL) = true →
          MapLoadEvent.postMapLoadEvent env urls mapId now s =
            MapLoadEvent.processRequests env
              { s with queue := s.queue ++ [(mapId, now)] }) ∧
        ((truthyStr env.config.ACCESS_TOKEN && urls.any isMapboxHTTPURL) = false →
          MapLoadEvent.postMapLoadEvent env urls mapId now s = .ok (s, []))) ∧
    (∀ (env : TelemetryEnv) (urls : List (List Char)) (now : Int)
        (s : TurnstileState),
        ((truthyStr env.config.ACCESS_TOKEN && urls.any isMapboxHTTPURL) = true →
          TurnstileEvent.postTurnstileEvent env urls now s =
            TurnstileEvent.processRequests env { s with queue := s.queue ++ [now] }) ∧
        ((truthyStr env.config.ACCESS_TOKEN && urls.any isMapboxHTTPURL) = false →
          TurnstileEvent.postTurnstileEvent env urls now s = .ok (s, []))) := by
  constructor
  · intro env urls mapId now s
    constructor <;> intro h <;> simp [MapLoadEvent.postMapLoadEvent, h]
  · intro env urls now s
    constructor <;> intro h <;> simp [TurnstileEvent.postTurnstileEvent, h]

/-- Witness for C5: a mapbox tile URL with a configured token enqueues and
dispatches; a non-mapbox URL is a no-op. -/
theorem c5_witness :
    MapLoadEvent.postMapLoadEvent exEnv ["https://a.tiles.mapbox.com/v4/t.png".toList]
        3 100 { eventData := exEventData, store := none, queue := [],
                pending := some 9, success := [] } =
      MapLoadEvent.processRequests exEnv
        { eventData := exEventData, store := none, queue := [(3, 100)],
          pending := some 9, success := [] } ∧
    TurnstileEvent.postTurnstileEvent exEnv ["https://example.com/t.png".toList]
        100 { eventData := exEventData, store := none, queue := [], pending := none } =
      .ok ({ eventData := exEventData, store := none, queue := [], pending := none }, []) :=
  ⟨(c5_report_gating.1 exEnv _ 3 100 _).1 (by decide),
   (c5_report_gating.2 exEnv _ 100 _).2 (by decide)⟩

/-- C10: `replaceTempAccessToken` preserves the length of the parameter
list; a parameter starting with `access_token=tk.` becomes `access_token=`
followed by the configured token (the bare literal `access_token=` when no
token is configured), and every other parameter is unchanged. -/
theorem c10_replace_temp_token (cfg : Config) (params : List (List Char))
    (i : Nat) (h : i < params.length) :
    (replaceTempAccessToken cfg params).length = params.length ∧
    ("access_token=tk.".toList.isPrefixOf params[i] = true →
        (replaceTempAccessToken cfg params)[i]? =
          some ("access_token=".toList ++ cfg.ACCESS_TOKEN.getD [])) ∧
    ("access_token=tk.".toList.isPrefixOf params[i] = false →
        (replaceTempAccessToken cfg params)[i]? = some params[i]) ∧
    (cfg.ACCESS_TOKEN = none → "access_token=tk.".toList.isPrefixOf params[i] = true →
        (replaceTempAccessToken cfg params)[i]? = some ("access_token=".toList)) := by
  refine ⟨by simp [replaceTempAccessToken], ?_, ?_, ?_⟩
  · intro hpre
    simp at hpre
    simp [replaceTempAccessToken, List.getElem?_map, List.getElem?_eq_getElem h, hpre]
  · intro hpre
    rw [Bool.eq_false_iff, Ne, List.isPrefixOf_iff_prefix] at hpre
    simp at hpre
    simp [replaceTempAccessToken, List.getElem?_map, List.getElem?_eq_getElem h, hpre]
  · intro htok hpre
    simp at hpre
    simp [replaceTempAccessToken, List.getElem?_map, List.getElem?_eq_getElem h, hpre, htok]

/-- Witness for C10 on a concrete parameter list: the `tk.` parameter of a
token-less configuration becomes the bare `access_token=` and the other
parameter survives unchanged. -/
theorem c10_witness :
    (replaceTempAccessToken
        { API_URL := [], EVENTS_URL := [], REQUIRE_ACCESS_TOKEN := true,
          ACCESS_TOKEN := none }
        ["access_token=tk.abc".toList, "fresh=true".toList])[0]? =
      some ("access_token=".toList) ∧
    (replaceTempAccessToken
        { API_URL := [], EVENTS_URL := [], REQUIRE_ACCESS_TOKEN := true,
          ACCESS_TOKEN := none }
        ["access_token=tk.abc".toList, "fresh=true".toList])[1]? =
      some ("fresh=true".toList) :=
  ⟨(c10_replace_temp_token _ _ 0 (by decide)).2.2.2 rfl (by decide),
   (c10_replace_temp_token _ _ 1 (by decide)).2.2.1 (by decide)⟩

/-- C7 counterexample: with `REQUIRE_ACCESS_TOKEN = false` a secret-class
token (leading `s`) does *not* fail — `makeAPIURL` returns before any token
check — refuting "fails with SecretTokenUsed regardless of configuration". -/
theorem c7_counterexample :
    makeAPIURL { exCfg with REQUIRE_ACCESS_TOKEN := false }
        { protocol := "mapbox".toList, authority := "x".toList,
          path := "/foo".toList, params := [] }
        (some ("sk.secret".toList)) =
      .ok ("https://api.mapbox.com/foo".toList) := by rfl

/-- C7 amended: the token checks run only when `REQUIRE_ACCESS_TOKEN` is
set.  Then a secret-class effective token (supplied, or configured when the
supplied one is falsy) fails with the secret-token error and a falsy
effective token fails with the missing-token error; with
`REQUIRE_ACCESS_TOKEN` unset `makeAPIURL` always succeeds (and appends no
token). -/
theorem c7_amended_token_checks :
    (∀ (cfg : Config) (u : UrlObject) (tok : Option (List Char)),
        cfg.REQUIRE_ACCESS_TOKEN = true → (parseUrl cfg.API_URL).isSome = true →
        ((jsOr tok cfg.ACCESS_TOKEN).getD []).head? = some 's' →
        makeAPIURL cfg u tok = .error .secretToken) ∧
    (∀ (cfg : Config) (u : UrlObject) (tok : Option (List Char)),
        cfg.REQUIRE_ACCESS_TOKEN = true → (parseUrl cfg.API_URL).isSome = true →
        truthyStr (jsOr tok cfg.ACCESS_TOKEN) = false →
        makeAPIURL cfg u tok = .error .missingToken) ∧
    (∀ (cfg : Config) (u : UrlObject) (tok : Option (List Char)) (api : UrlObject),
        cfg.REQUIRE_ACCESS_TOKEN = false → parseUrl cfg.API_URL = some api →
        makeAPIURL cfg u tok =
          .ok (formatUrl
            { protocol := api.protocol, authority := api.authority,
              path := if api.path ≠ ['/'] then api.path ++ u.path else u.path,
              params := u.params })) := by
  refine ⟨?_, ?_, ?_⟩
  · intro cfg u tok hreq hapi hs
    obtain ⟨api, hapi⟩ := Option.isSome_iff_exists.mp hapi
    cases htok : jsOr tok cfg.ACCESS_TOKEN with
    | none => simp [htok] at hs
    | some l =>
      cases l with
      | nil => simp [htok] at hs
      | cons c cs =>
        simp [htok] at hs
        simp [makeAPIURL, hapi, hreq, htok, hs]
  · intro cfg u tok hreq hapi hfalsy
    obtain ⟨api, hapi⟩ := Option.isSome_iff_exists.mp hapi
    cases htok : jsOr tok cfg.ACCESS_TOKEN with
    | none => simp [makeAPIURL, hapi, hreq, htok]
    | some l =>
      cases l with
      | nil => simp [makeAPIURL, hapi, hreq, htok]
      | cons c cs => simp [htok, truthyStr] at hfalsy
  · intro cfg u tok api hreq hapi
    by_cases hpath : api.path = ['/'] <;>
      simp [makeAPIURL, hapi, hreq, hpath]

/-- Witness for C7: a secret token fails when tokens are required, an
absent token fails with the missing-token error, and with
`REQUIRE_ACCESS_TOKEN = false` the call succeeds with the caller's params
untouched (no token appended). -/
theorem c7_witness :
    makeAPIURL exCfg
        { protocol := "mapbox".toList, authority := "x".toList,
          path := "/foo".toList, params := [] } (some ("sk.secret".toList)) =
      .error .secretToken ∧
    makeAPIURL { exCfg with ACCESS_TOKEN := none }
        { protocol := "mapbox".toList, authority := "x".toList,
          path := "/foo".toList, params := [] } none =
      .error .missingToken ∧
    makeAPIURL { exCfg with REQUIRE_ACCESS_TOKEN := false }
        { protocol := "mapbox".toList, authority := "x".toList,
          path := "/foo".toList, params := [] } none =
      .ok (formatUrl
        { protocol := "https".toList, authority := "api.mapbox.com".toList,
          path := if ("/".toList : List Char) ≠ ['/']
                  then "/".toList ++ "/foo".toList else "/foo".toList,
          params := [] }) :=
  ⟨c7_amended_token_checks.1 exCfg _ _ rfl (by decide) (by decide),
   c7_amended_token_checks.2.1 _ _ none rfl (by decide) (by decide),
   c7_amended_token_checks.2.2 _ _ none
     { protocol := "https".toList, authority := "api.mapbox.com".toList,
       path := "/".toList, params := [] } rfl (by rfl)⟩

/-- C8 counterexample: `normalizeSpriteURL` on a non-first-party locator is
*not* the identity — the format and extension are appended to its path. -/
theorem c8_counterexample :
    isMapboxURL ("https://example.com/sprite".toList) = false ∧
    normalizeSpriteURL exCfg ("https://example.com/sprite".toList)
        ("@2x".toList) (".png".toList) none =
      .ok ("https://example.com/sprite@2x.png".toList) ∧
    ("https://example.com/sprite@2x.png".toList ≠ "https://example.com/sprite".toList) := by
  refine ⟨by rfl, by rfl, by decide⟩

/-- C8 amended: the style, glyphs and source wrappers return a
non-first-party locator unchanged and delegate a first-party locator to
`makeAPIURL` after the resource-specific path rewrite (plus the `secure`
param for sources).  The sprite wrapper parses even non-first-party
locators and returns them with `format ++ extension` appended to the path,
re-formatted; first-party sprite locators are rewritten and delegated.
The tile wrapper keys on the *source* locator: it returns the tile locator
unchanged whenever the source locator is absent or not first-party, and
for a first-party source it rewrites the image extension and temporary
token and re-formats directly, never delegating to `makeAPIURL`. -/
theorem c8_amended_passthrough :
    (∀ (cfg : Config) (url : List Char) (tok : Option (List Char)),
        isMapboxURL url = false → normalizeStyleURL cfg url tok = .ok url) ∧
    (∀ (cfg : Config) (url : List Char) (tok : Option (List Char)) (u : UrlObject),
        isMapboxURL url = true → parseUrl url = some u →
        normalizeStyleURL cfg url tok =
          makeAPIURL cfg { u with path := "/styles/v1".toList ++ u.path } tok) ∧
    (∀ (cfg : Config) (url : List Char) (tok : Option (List Char)),
        isMapboxURL url = false → normalizeGlyphsURL cfg url tok = .ok url) ∧
    (∀ (cfg : Config) (url : List Char) (tok : Option (List Char)) (u : UrlObject),
        isMapboxURL url = true → parseUrl url = some u →
        normalizeGlyphsURL cfg url tok =
          makeAPIURL cfg { u with path := "/fonts/v1".toList ++ u.path } tok) ∧
    (∀ (cfg : Config) (url : List Char) (tok : Option (List Char)),
        isMapboxURL url = false → normalizeSourceURL cfg url tok = .ok url) ∧
    (∀ (cfg : Config) (url : List Char) (tok : Option (List Char)) (u : UrlObject),
        isMapboxURL url = true → parseUrl url = some u →
        normalizeSourceURL cfg url tok =
          makeAPIURL cfg
            { u with path := "/v4/".toList ++ u.authority ++ ".json".toList,
                     params := u.params ++ ["secure".toList] } tok) ∧
    (∀ (cfg : Config) (url fmt ext : List Char) (tok : Option (List Char))
        (u : UrlObject),
        isMapboxURL url = false → parseUrl url = some u →
        normalizeSpriteURL cfg url fmt ext tok =
          .ok (formatUrl { u with path := u.path ++ fmt ++ ext })) ∧
    (∀ (cfg : Config) (url fmt ext : List Char) (tok : Option (List Char))
        (u : UrlObject),
        isMapboxURL url = true → parseUrl url = some u →
        normalizeSpriteURL cfg url fmt ext tok =
          makeAPIURL cfg
            { u with path := "/styles/v1".toList ++ u.path ++ "/sprite".toList
                              ++ fmt ++ ext } tok) ∧
    (∀ (cfg : Config) (br : Browser) (tileURL : List Char)
        (sourceURL : Option (List Char)) (tileSize : Option Int),
        (truthyStr sourceURL && isMapboxURL (sourceURL.getD [])) = false →
        normalizeTileURL cfg br tileURL sourceURL tileSize = .ok tileURL) ∧
    (∀ (cfg : Config) (br : Browser) (tileURL : List Char)
        (sourceURL : Option (List Char)) (tileSize : Option Int) (u : UrlObject),
        (truthyStr sourceURL && isMapboxURL (sourceURL.getD [])) = true →
        parseUrl tileURL = some u →
        normalizeTileURL cfg br tileURL sourceURL tileSize =
          .ok (formatUrl
            { u with
              path := replaceImageExt
                (if decide (br.devicePixelRatio ≥ 2) || decide (tileSize = some 512)
                 then "@2x".toList else []) br.supportsWebp u.path,
              params := replaceTempAccessToken cfg u.params })) := by
  refine ⟨?_, ?_, ?_, ?_, ?_, ?_, ?_, ?_, ?_, ?_⟩
  · intro cfg url tok h
    simp [normalizeStyleURL, h]
  · intro cfg url tok u h hu
    simp [normalizeStyleURL, h, hu]
  · intro cfg url tok h
    simp [normalizeGlyphsURL, h]
  · intro cfg url tok u h hu
    simp [normalizeGlyphsURL, h, hu]
  · intro cfg url tok h
    simp [normalizeSourceURL, h]
  · intro cfg url tok u h hu
    simp [normalizeSourceURL, h, hu]
  · intro cfg url fmt ext tok u h hu
    simp [normalizeSpriteURL, h, hu]
  · intro cfg url fmt ext tok u h hu
    simp [normalizeSpriteURL, h, hu]
  · intro cfg br tileURL sourceURL tileSize h
    simp [normalizeTileURL, h]
  · intro cfg br tileURL sourceURL tileSize u h hu
    simp [normalizeTileURL, h, hu]

/-- Witness for C8: concrete non-first-party locators pass through (or, for
sprites, gain the appended format and extension), and concrete first-party
locators take the rewrite-and-delegate (or, for tiles, rewrite-and-format)
path. -/
theorem c8_witness :
    normalizeStyleURL exCfg ("https://example.com/style.json".toList) none =
      .ok ("https://example.com/style.json".toList) ∧
    normalizeStyleURL exCfg ("mapbox://styles/user/basic".toList) none =
      makeAPIURL exCfg
        { protocol := "mapbox".toList, authority := "styles".toList,
          path := "/styles/v1".toList ++ "/user/basic".toList, params := [] } none ∧
    normalizeGlyphsURL exCfg ("https://example.com/f/glyphs.pbf".toList) none =
      .ok ("https://example.com/f/glyphs.pbf".toList) ∧
    normalizeGlyphsURL exCfg ("mapbox://fonts/user/arial".toList) none =
      makeAPIURL exCfg
        { protocol := "mapbox".toList, authority := "fonts".toList,
          path := "/fonts/v1".toList ++ "/user/arial".toList, params := [] } none ∧
    normalizeSourceURL exCfg ("https://example.com/src.json".toList) none =
      .ok ("https://example.com/src.json".toList) ∧
    normalizeSourceURL exCfg ("mapbox://mapbox.satellite".toList) none =
      makeAPIURL exCfg
        { protocol := "mapbox".toList, authority := "mapbox.satellite".toList,
          path := "/v4/".toList ++ "mapbox.satellite".toList ++ ".json".toList,
          params := [] ++ ["secure".toList] } none ∧
    normalizeSpriteURL exCfg ("https://example.com/sprite".toList)
        ("".toList) (".json".toList) none =
      .ok (formatUrl { protocol := "https".toList, authority := "example.com".toList,
                       path := "/sprite".toList ++ "".toList ++ ".json".toList,
                       params := [] }) ∧
    normalizeSpriteURL exCfg ("mapbox://sprites/user/basic".toList)
        ("@2x".toList) (".png".toList) none =
      makeAPIURL exCfg
        { protocol := "mapbox".toList, authority := "sprites".toList,
          path := "/styles/v1".toList ++ "/user/basic".toList ++ "/sprite".toList
                   ++ "@2x".toList ++ ".png".toList, params := [] } none ∧
    normalizeTileURL exCfg { devicePixelRatio := 1, supportsWebp := true }
        ("https://example.com/t.png".toList) (some ("https://example.com/s".toList))
        none =
      .ok ("https://example.com/t.png".toList) ∧
    normalizeTileURL exCfg { devicePixelRatio := 1, supportsWebp := true }
        ("https://a.tiles.mapbox.com/v4/t.png".toList)
        (some ("mapbox://mapbox.satellite".toList)) none =
      .ok (formatUrl
        { protocol := "https".toList, authority := "a.tiles.mapbox.com".toList,
          path := replaceImageExt
            (if decide ((1 : Int) ≥ 2) || decide ((none : Option Int) = some 512)
             then "@2x".toList else []) true ("/v4/t.png".toList),
          params := replaceTempAccessToken exCfg [] }) :=
  ⟨c8_amended_passthrough.1 exCfg _ none (by decide),
   c8_amended_passthrough.2.1 exCfg _ none
     { protocol := "mapbox".toList, authority := "styles".toList,
       path := "/user/basic".toList, params := [] } (by decide) (by rfl),
   c8_amended_passthrough.2.2.1 exCfg _ none (by decide),
   c8_amended_passthrough.2.2.2.1 exCfg _ none
     { protocol := "mapbox".toList, authority := "fonts".toList,
       path := "/user/arial".toList, params := [] } (by decide) (by rfl),
   c8_amended_passthrough.2.2.2.2.1 exCfg _ none (by decide),
   c8_amended_passthrough.2.2.2.2.2.1 exCfg _ none
     { protocol := "mapbox".toList, authority := "mapbox.satellite".toList,
       path := ['/'], params := [] } (by decide) (by rfl),
   c8_amended_passthrough.2.2.2.2.2.2.1 exCfg _ _ _ none
     { protocol := "https".toList, authority := "example.com".toList,
       path := "/sprite".toList, params := [] } (by decide) (by rfl),
   c8_amended_passthrough.2.2.2.2.2.2.2.1 exCfg _ _ _ none
     { protocol := "mapbox".toList, authority := "sprites".toList,
       path := "/user/basic".toList, params := [] } (by decide) (by rfl),
   c8_amended_passthrough.2.2.2.2.2.2.2.2.1 exCfg _ _ _ none (by decide),
   c8_amended_passthrough.2.2.2.2.2.2.2.2.2 exCfg _ _ _ none
     { protocol := "https".toList, authority := "a.tiles.mapbox.com".toList,
       path := "/v4/t.png".toList, params := [] } (by decide) (by rfl)⟩

/-- C3 counterexample: a state with a *valid* persisted anonymous id, an
*unchanged* token and *no* persisted `lastSuccess` — which the claim calls
due — is skipped: the queued entry is dropped and no request is issued. -/
theorem c3_counterexample :
    exEnv.validateUuid ("0000".toList) = true ∧
    c3CexState.eventData.accessToken = exEnv.config.ACCESS_TOKEN ∧
    c3CexState.eventData.lastSuccess = none ∧
    c3CexState.store = some c3CexState.eventData ∧
    c3CexState.queue = [100] ∧ c3CexState.pending = none ∧
    TurnstileEvent.processRequests exEnv c3CexState =
      .ok ({ c3CexState with queue := [] }, []) := by
  refine ⟨by decide, rfl, rfl, rfl, rfl, rfl, by rfl⟩

/-- C3 amended: with an idle slot and exactly one queued timestamp, a
request is issued for it iff `dueSpecAmended` holds: the stored token is
set and differs from the current token, or the anonymous id in effect
after the conditional storage fetch is absent or invalid, or a
last-success timestamp is in effect and the elapsed time is ≥ 1 day or
< −1 day or its calendar day-of-month differs from the new timestamp's.
A state with a valid id, an unchanged token and no last-success timestamp
is *not* due and the entry is dropped. -/
theorem c3_amended_due_iff (env : TelemetryEnv) (s : TurnstileState) (next : Int)
    (h1 : s.pending = none) (h2 : s.queue = [next])
    (h3 : (eventsRequestUrl env.config).isSome = true) :
    ∃ s' reqs, TurnstileEvent.processRequests env s = .ok (s', reqs) ∧
      reqs.length = (if dueSpecAmended env s next then 1 else 0) ∧
      s'.pending = (if dueSpecAmended env s next then some next else none) ∧
      s'.queue = [] ∧
      ∀ r ∈ reqs, r.created = next ∧ r.event = "appUserTurnstile".toList := by
  obtain ⟨url, hurl⟩ := Option.isSome_iff_exists.mp h3
  rcases s with ⟨ed, store, q, p⟩
  simp only at h1 h2
  subst h1 h2
  have hdue := due_eq_spec env ⟨ed, store, [next], none⟩ next
  simp only at hdue
  simp only [TurnstileEvent.processRequests, Option.isSome_none, List.isEmpty_cons,
    Bool.or_self, Bool.false_eq_true, if_false, TurnstileEvent.drain, hurl, hdue]
  cases hd : dueSpecAmended env ⟨ed, store, [next], none⟩ next
  · simp only [hd, Bool.not_false, if_true]
    exact ⟨_, _, rfl, by simp, by simp, rfl, by simp⟩
  · simp only [hd, Bool.not_true, Bool.false_eq_true, if_false]
    refine ⟨_, _, rfl, by simp, by simp, rfl, ?_⟩
    intro r hr
    simp only [List.mem_singleton] at hr
    subst hr
    exact ⟨rfl, rfl⟩

/-- Witness for C3 at a due concrete state (no anonymous id at all, so the
regenerated-UUID disjunct fires) — one request is issued for the queued
timestamp. -/
theorem c3_amended_witness :
    ∃ s' reqs, TurnstileEvent.processRequests exEnv
        { eventData := { anonId := none, lastSuccess := none,
                         accessToken := some ("pk.x".toList) },
          store := none, queue := [100], pending := none } = .ok (s', reqs) ∧
      reqs.length = (if dueSpecAmended exEnv
          { eventData := { anonId := none, lastSuccess := none,
                           accessToken := some ("pk.x".toList) },
            store := none, queue := [100], pending := none } 100 then 1 else 0) ∧
      s'.pending = (if dueSpecAmended exEnv
          { eventData := { anonId := none, lastSuccess := none,
                           accessToken := some ("pk.x".toList) },
            store := none, queue := [100], pending := none } 100
          then some 100 else none) ∧
      s'.queue = [] ∧
      ∀ r ∈ reqs, r.created = 100 ∧ r.event = "appUserTurnstile".toList :=
  c3_amended_due_iff exEnv _ 100 rfl rfl (by decide)

/-- C6 counterexample: `mapbox://host` is accepted by the parse grammar
(path is optional) but round-trips to `mapbox://host/`, not to itself. -/
theorem c6_counterexample :
    (parseUrl ("mapbox://host".toList)).map formatUrl =
      some ("mapbox://host/".toList) ∧
    ("mapbox://host/".toList ≠ "mapbox://host".toList) := by
  refine ⟨by rfl, by decide⟩

/-- C6 amended: the parse→format round trip reproduces the locator
byte-for-byte exactly when the locator carries an explicit non-empty path
(`scheme://authority/path` with `path` free of `?`) and, if a query is
present, a non-empty query string free of the JS line terminators
(LF, CR, U+2028, U+2029). -/
theorem c6_roundtrip_amended (w a p q : List Char)
    (hw : w ≠ []) (hw2 : ∀ c ∈ w, isWordChar c = true)
    (ha : ∀ c ∈ a, notSlashQ c = true)
    (hp : p ≠ []) (hp2 : ∀ c ∈ p, notQ c = true)
    (hq : ∀ c ∈ q, notLineTerm c = true) :
    ((parseUrl (w ++ ':' :: '/' :: '/' :: (a ++ '/' :: p))).map formatUrl =
       some (w ++ ':' :: '/' :: '/' :: (a ++ '/' :: p))) ∧
    (q ≠ [] →
      (parseUrl (w ++ ':' :: '/' :: '/' :: (a ++ '/' :: (p ++ '?' :: q)))).map formatUrl =
        some (w ++ ':' :: '/' :: '/' :: (a ++ '/' :: (p ++ '?' :: q)))) := by
  have hw0 : w.isEmpty = false := by
    cases w with
    | nil => exact absurd rfl hw
    | cons c t => rfl
  have hp0 : p.isEmpty = false := by
    cases p with
    | nil => exact absurd rfl hp
    | cons c t => rfl
  constructor
  · have h1 := @span_append isWordChar w ':' ('/' :: '/' :: (a ++ '/' :: p)) hw2 (by decide)
    have h2 := @span_append notSlashQ a '/' p ha (by decide)
    have h3 := span_all hp2
    simp only [parseUrl, h1.1, h1.2, hw0, Bool.false_eq_true, if_false, h2.1, h2.2,
      h3.1, h3.2, hp0, List.isEmpty_nil, List.takeWhile_nil]
    simp [formatUrl]
  · intro hq0
    have hq1 : q.isEmpty = false := by
      cases q with
      | nil => exact absurd rfl hq0
      | cons c t => rfl
    have h1 := @span_append isWordChar w ':'
      ('/' :: '/' :: (a ++ '/' :: (p ++ '?' :: q))) hw2 (by decide)
    have h2 := @span_append notSlashQ a '/' (p ++ '?' :: q) ha (by decide)
    have h3 := @span_append notQ p '?' q hp2 (by decide)
    have h4 := span_all hq
    simp only [parseUrl, h1.1, h1.2, hw0, Bool.false_eq_true, if_false, h2.1, h2.2,
      h3.1, h3.2, h4.1, hp0, hq1]
    simp [formatUrl, joinAmp_splitAmp q, splitAmp_ne_nil q]

/-- Witness for C6 on the concrete locator `ab://host/st?x=1&y=2`. -/
theorem c6_witness :
    ((parseUrl ("ab".toList ++ ':' :: '/' :: '/' ::
        ("host".toList ++ '/' :: "st".toList))).map formatUrl =
      some ("ab".toList ++ ':' :: '/' :: '/' ::
        ("host".toList ++ '/' :: "st".toList))) ∧
    ("x=1&y=2".toList ≠ [] →
      ((parseUrl ("ab".toList ++ ':' :: '/' :: '/' ::
          ("host".toList ++ '/' :: ("st".toList ++ '?' :: "x=1&y=2".toList)))).map
            formatUrl =
        some ("ab".toList ++ ':' :: '/' :: '/' ::
          ("host".toList ++ '/' :: ("st".toList ++ '?' :: "x=1&y=2".toList))))) :=
  c6_roundtrip_amended ("ab".toList) ("host".toList) ("st".toList)
    ("x=1&y=2".toList) (by decide) (by decide) (by decide) (by decide)
    (by decide) (by decide)
